import Mathlib

/-!
Verification of the ArchiCAD georeferencing core (crs_metadata.py,
models.py, georef_reader.py, georef_writer.py, coord_transformer.py).

Numbers on the wire are modelled as real numbers; Python strings are
modelled as Lean strings restricted to ASCII semantics (the regular
expression character classes `\d`, `\s`, `\w`, `[A-Za-z]` are read as
their ASCII meaning, which covers every string the program handles).
External collaborators (pyproj, requests/epsg.io, the Tapir gateway)
are modelled as explicit behaviour parameters: each source-level call
that can fail is an `Option`/`Except` value supplied from outside.
-/

namespace ArchicadGeoref

/-! ### Zone extraction (crs_metadata.py, `_extract_zone`)

The two regular expressions of the source are implemented directly:
  pattern 1: `\bzone\s*([\d]+[A-Z]?)` with re.IGNORECASE
  pattern 2: `[A-Za-z]+(\d{1,3})[A-Za-z]`
`re.search` semantics: try a match at each position left to right and
return the first group of the first position that matches.  Since the
character classes of each pattern are pairwise disjoint, the greedy
quantifiers never need to give characters back, except `\d{1,3}`
followed by `[A-Za-z]`, which succeeds exactly when the whole digit
run has length 1..3 and is followed by a letter (shorter attempts
would face another digit). -/

/-- Python word character for `\b` (ASCII): letter, digit or underscore. -/
def isWordChar (c : Char) : Bool := c.isAlphanum || c = '_'

/-- Match the literal `zone` case-insensitively at the head of the list,
returning the remaining characters. -/
def matchZoneLit : List Char → Option (List Char)
  | a :: b :: c :: d :: rest =>
    if a.toLower = 'z' && b.toLower = 'o' && c.toLower = 'n' && d.toLower = 'e' then
      some rest
    else
      none
  | _ => none

/-- Try pattern 1 at the current position: a word boundary (the previous
character, if any, is not a word character), the literal `zone`, then
`\s*`, then `[\d]+` and an optional letter (`[A-Z]?` under IGNORECASE
matches any ASCII letter).  Returns the captured group. -/
def zoneAt (prevIsWord : Bool) (l : List Char) : Option String :=
  if prevIsWord then none
  else
    match matchZoneLit l with
    | none => none
    | some rest =>
      let afterWs := rest.dropWhile Char.isWhitespace
      let digits := afterWs.takeWhile Char.isDigit
      if digits.isEmpty then none
      else
        match afterWs.drop digits.length with
        | c :: _ =>
          if c.isAlpha then some (String.mk (digits ++ [c])) else some (String.mk digits)
        | [] => some (String.mk digits)

/-- `re.search` driver for pattern 1: try every position left to right. -/
def searchZonePat (prevIsWord : Bool) : List Char → Option String
  | [] => none
  | c :: rest =>
    match zoneAt prevIsWord (c :: rest) with
    | some g => some g
    | none => searchZonePat (isWordChar c) rest

/-- Try pattern 2 at the current position: one or more ASCII letters, a
run of 1..3 digits, then one ASCII letter; the captured group is the
digit run.  A digit run longer than 3 fails here (every shorter greedy
attempt is followed by another digit, not a letter). -/
def embeddedZoneAt (l : List Char) : Option String :=
  let letters := l.takeWhile Char.isAlpha
  if letters.isEmpty then none
  else
    let rest := l.drop letters.length
    let digits := rest.takeWhile Char.isDigit
    if digits.isEmpty || decide (3 < digits.length) then none
    else
      match rest.drop digits.length with
      | c :: _ => if c.isAlpha then some (String.mk digits) else none
      | [] => none

/-- `re.search` driver for pattern 2: try every position left to right. -/
def searchEmbedded : List Char → Option String
  | [] => none
  | c :: rest =>
    match embeddedZoneAt (c :: rest) with
    | some g => some g
    | none => searchEmbedded rest

/-- Model of `_extract_zone(op_name, crs_name="")`: pattern 1 then
pattern 2 on the operation name, then pattern 1 then pattern 2 on the
CRS name, first match wins, else the empty string.  The source's
default `crs_name=""` is written out explicitly at every call site. -/
def _extract_zone (op_name : String) (crs_name : String) : String :=
  match searchZonePat false op_name.data with
  | some z => z
  | none =>
  match searchEmbedded op_name.data with
  | some z => z
  | none =>
  match searchZonePat false crs_name.data with
  | some z => z
  | none =>
  match searchEmbedded crs_name.data with
  | some z => z
  | none => ""

example : _extract_zone "UTM zone 33N" "" = "33N" := by decide
example : _extract_zone "TM35FIN(E,N)" "" = "35" := by decide
example : _extract_zone "GK25FIN" "" = "25" := by decide
example : _extract_zone "zone 6" "" = "6" := by decide
example : _extract_zone "ozone 3" "" = "" := by decide
example : _extract_zone "Helsinki" "" = "" := by decide

/-! ### CRS metadata resolver (crs_metadata.py) -/

/-- CRS identification strings (dataclass `CRSMetadata`), each defaulting
to the empty string. -/
structure CRSMetadata where
  crs_name : String := ""
  description : String := ""
  geodetic_datum : String := ""
  vertical_datum : String := ""
  map_projection : String := ""
  map_zone : String := ""
deriving DecidableEq

/-- Python `s or t` on strings: the left operand unless it is empty. -/
def pyOr (s t : String) : String := if s = "" then t else s

/-- Python `str.strip()` (ASCII whitespace): drop leading and trailing
whitespace. -/
def pyStrip (s : String) : String :=
  String.mk (((s.data.dropWhile Char.isWhitespace).reverse.dropWhile
    Char.isWhitespace).reverse)

/-- Observable behaviour of the coordinate-operation block of
`_from_pyproj` (its own try/except, with in-place mutation): the
`coordinate_operation` access may raise before anything is assigned,
the operation may be absent (falsy), the `name` access may raise after
`map_projection` was already assigned, or everything may succeed. -/
inductive OpBlock where
  | raised
  | absent
  | raisedAfterMethod (method_name : Option String)
  | full (method_name : Option String) (op_name : Option String)
deriving DecidableEq

/-- Observable behaviour of the geodetic-datum block of `_from_pyproj`
(its own try/except): some lookup inside the block raised, or the datum
was falsy (nothing assigned), or `datum.name or ""` evaluated to a
string. -/
inductive DatumBlock where
  | raised
  | absent
  | named (s : String)
deriving DecidableEq

/-- Behaviour of one successful `pyproj.CRS.from_epsg` result, as
observed by `_from_pyproj`: the display name, the optional `remarks`
attribute, the geodetic-datum block and the coordinate-operation
block. -/
structure PyprojCRS where
  name : String
  remarks : Option String
  datumBlock : DatumBlock
  opBlock : OpBlock
deriving DecidableEq

/-- Model of `_from_pyproj`: `none` means `pyproj.CRS.from_epsg(code)`
raised (the first try/except returns an all-empty `CRSMetadata`);
otherwise fields are filled from the behaviour exactly as the source
assigns them, each guarded try-block leaving its fields empty when it
raises part-way. -/
def _from_pyproj (lookup : Option PyprojCRS) : CRSMetadata :=
  match lookup with
  | none => {}
  | some crs =>
    let mapFields : String × String :=
      match crs.opBlock with
      | .raised => ("", "")
      | .absent => ("", "")
      | .raisedAfterMethod m => (pyOr (m.getD "") "", "")
      | .full m opName =>
        (pyOr (m.getD "") "", _extract_zone (pyOr (opName.getD "") "") crs.name)
    { crs_name := pyOr crs.name ""
      description := pyOr (pyStrip (pyOr (crs.remarks.getD "") "")) (pyOr crs.name "")
      geodetic_datum :=
        match crs.datumBlock with
        | .raised => ""
        | .absent => ""
        | .named d => pyOr d ""
      vertical_datum := ""
      map_projection := mapFields.1
      map_zone := mapFields.2 }

/-- Model of `_fill_from_epsg_io(code, meta)` (source name kept in this
comment; the Lean name avoids a suffix clash).  The network behaviour
is `none` when the request raised, returned a non-200 status, or had an
empty `results` array — in all of those cases the function returns
without touching `meta`.  Otherwise `some n` is `results[0].get("name",
"")`, and only the still-empty fields `crs_name`, `description` and
`map_zone` are filled from it. -/
def fill_from_epsg_fallback (net : Option String) (meta : CRSMetadata) : CRSMetadata :=
  match net with
  | none => meta
  | some n =>
    let meta := if meta.crs_name = "" then { meta with crs_name := n } else meta
    let meta := if meta.description = "" then { meta with description := n } else meta
    if meta.map_zone = "" then { meta with map_zone := _extract_zone n "" } else meta

/-- The error message of `from_epsg` for an unresolvable code. -/
def unresolvedMsg (code : Nat) : String :=
  "EPSG:" ++ toString code ++ " could not be resolved by pyproj or epsg.io"

/-- Model of `from_epsg(code)`, parametrised by the behaviours of the
two collaborators: step 1 (pyproj), then the network fallback only when
`crs_name` or `map_zone` is still empty, then failure iff `crs_name` is
still empty. -/
def from_epsg (code : Nat) (pyp : Option PyprojCRS) (net : Option String) :
    Except String CRSMetadata :=
  let meta := _from_pyproj pyp
  let meta :=
    if meta.crs_name = "" || meta.map_zone = "" then fill_from_epsg_fallback net meta
    else meta
  if meta.crs_name = "" then .error (unresolvedMsg code)
  else .ok meta

/-! ### Data model (models.py), with floats modelled as real numbers -/

/-- WGS84 geographic location of the project origin (dataclass
`ProjectLocation`); north direction held in degrees internally. -/
structure ProjectLocation where
  longitude : ℝ := 0
  latitude : ℝ := 0
  altitude : ℝ := 0
  north_deg : ℝ := 0

/-- Position of the survey point in the local projected CRS
(dataclass `SurveyPointPosition`). -/
structure SurveyPointPosition where
  eastings : ℝ := 0
  northings : ℝ := 0
  elevation : ℝ := 0

/-- CRS identification strings on the Tapir side (dataclass
`GeoReferencingParameters`). -/
structure GeoReferencingParameters where
  crs_name : String := ""
  description : String := ""
  geodetic_datum : String := ""
  vertical_datum : String := ""
  map_projection : String := ""
  map_zone : String := ""
deriving DecidableEq

/-- Complete georeferencing state (dataclass `GeorefData`). -/
structure GeorefData where
  project_location : ProjectLocation := {}
  survey_point : SurveyPointPosition := {}
  geo_ref_params : GeoReferencingParameters := {}

/-- `math.radians`: degrees to radians. -/
noncomputable def radians (d : ℝ) : ℝ := d * (Real.pi / 180)

/-- `math.degrees`: radians to degrees. -/
noncomputable def degrees (r : ℝ) : ℝ := r * (180 / Real.pi)

/-! ### Writer (georef_writer.py) -/

/-- The `projectLocation` block of the wire payload. -/
structure WireProjectLocation where
  longitude : ℝ
  latitude : ℝ
  altitude : ℝ
  north : ℝ

/-- The `position` block of the wire payload. -/
structure WirePosition where
  eastings : ℝ
  northings : ℝ
  elevation : ℝ

/-- The `geoReferencingParameters` block of the wire payload. -/
structure WireGeoRefParams where
  crsName : String
  description : String
  geodeticDatum : String
  verticalDatum : String
  mapProjection : String
  mapZone : String

/-- The `surveyPoint` block of the wire payload. -/
structure WireSurveyPoint where
  position : WirePosition
  geoReferencingParameters : WireGeoRefParams

/-- The nested wire mapping sent to Tapir `SetGeoLocation`; every key of
the schema is always present, so the blocks use plain fields. -/
structure Payload where
  projectLocation : WireProjectLocation
  surveyPoint : WireSurveyPoint

/-- Model of `build_payload(data)`: restates every `GeorefData` field
into the nested wire shape, converting `north_deg` to radians. -/
noncomputable def build_payload (data : GeorefData) : Payload :=
  { projectLocation :=
      { longitude := data.project_location.longitude
        latitude := data.project_location.latitude
        altitude := data.project_location.altitude
        north := radians data.project_location.north_deg }
    surveyPoint :=
      { position :=
          { eastings := data.survey_point.eastings
            northings := data.survey_point.northings
            elevation := data.survey_point.elevation }
        geoReferencingParameters :=
          { crsName := data.geo_ref_params.crs_name
            description := data.geo_ref_params.description
            geodeticDatum := data.geo_ref_params.geodetic_datum
            verticalDatum := data.geo_ref_params.vertical_datum
            mapProjection := data.geo_ref_params.map_projection
            mapZone := data.geo_ref_params.map_zone } } }

/-- Model of `write_geolocation(tapir_fn, data)`: builds the payload,
issues `SetGeoLocation`, and wraps any transport failure in an error
naming the command and carrying the cause; the gateway behaviour is
the function `tapir` from the payload to the call's outcome. -/
noncomputable def write_geolocation {α : Type} (tapir : Payload → Except String α)
    (data : GeorefData) : Except String α :=
  match tapir (build_payload data) with
  | .error exc => .error ("Tapir SetGeoLocation failed: " ++ exc)
  | .ok result => .ok result

/-! ### Reader (georef_reader.py)

The raw `GetGeoLocation` response is modelled per the wire schema with
every key optional (`none` = key missing).  A present-but-empty
sub-dict is observationally identical to every key missing, and the
source's `response.get(k) or {}` plus truthiness checks collapse both
to the same field values, so the model does not distinguish them. -/

/-- Raw `projectLocation` block: every key may be missing. -/
structure RawProjectLocation where
  longitude : Option ℝ := none
  latitude : Option ℝ := none
  altitude : Option ℝ := none
  north : Option ℝ := none

/-- Raw `position` block: every key may be missing. -/
structure RawPosition where
  eastings : Option ℝ := none
  northings : Option ℝ := none
  elevation : Option ℝ := none

/-- Raw `geoReferencingParameters` block: every key may be missing. -/
structure RawGeoRefParams where
  crsName : Option String := none
  description : Option String := none
  geodeticDatum : Option String := none
  verticalDatum : Option String := none
  mapProjection : Option String := none
  mapZone : Option String := none

/-- Raw `surveyPoint` block: both sub-blocks may be missing. -/
structure RawSurveyPoint where
  position : Option RawPosition := none
  geoReferencingParameters : Option RawGeoRefParams := none

/-- Raw `GetGeoLocation` response: both top-level sections may be
missing. -/
structure RawResponse where
  projectLocation : Option RawProjectLocation := none
  surveyPoint : Option RawSurveyPoint := none

/-- The body of `read_geolocation` after the guarded Tapir call:
normalises a raw response into a `GeorefData`, substituting the
defaults `0.0` / `""` for every missing key or section, and converting
`north` from radians to degrees. -/
noncomputable def parseGeoLocation (response : RawResponse) : GeorefData :=
  let base : GeorefData := {}
  let pl : ProjectLocation :=
    match response.projectLocation with
    | none => base.project_location
    | some p =>
      { longitude := p.longitude.getD 0
        latitude := p.latitude.getD 0
        altitude := p.altitude.getD 0
        north_deg := degrees (p.north.getD 0) }
  let spFields : SurveyPointPosition × GeoReferencingParameters :=
    match response.surveyPoint with
    | none => (base.survey_point, base.geo_ref_params)
    | some sp =>
      let pos : SurveyPointPosition :=
        match sp.position with
        | none => { eastings := 0, northings := 0, elevation := 0 }
        | some q =>
          { eastings := q.eastings.getD 0
            northings := q.northings.getD 0
            elevation := q.elevation.getD 0 }
      let gp : GeoReferencingParameters :=
        match sp.geoReferencingParameters with
        | none =>
          { crs_name := "", description := "", geodetic_datum := ""
            vertical_datum := "", map_projection := "", map_zone := "" }
        | some g =>
          { crs_name := g.crsName.getD ""
            description := g.description.getD ""
            geodetic_datum := g.geodeticDatum.getD ""
            vertical_datum := g.verticalDatum.getD ""
            map_projection := g.mapProjection.getD ""
            map_zone := g.mapZone.getD "" }
      (pos, gp)
  { project_location := pl, survey_point := spFields.1, geo_ref_params := spFields.2 }

/-- Model of `read_geolocation(tapir_fn)`: the guarded `GetGeoLocation`
call (`Except.error` = the call raised) followed by normalisation; a
transport failure is wrapped in an error naming the command and
carrying the cause. -/
noncomputable def read_geolocation (tapir : Except String RawResponse) :
    Except String GeorefData :=
  match tapir with
  | .error exc => .error ("Tapir GetGeoLocation failed: " ++ exc)
  | .ok response => .ok (parseGeoLocation response)

/-- Glue for the round-trip statements: re-present a writer payload as
a reader raw response with every key of the wire schema present. -/
def payloadToRaw (p : Payload) : RawResponse :=
  { projectLocation := some
      { longitude := some p.projectLocation.longitude
        latitude := some p.projectLocation.latitude
        altitude := some p.projectLocation.altitude
        north := some p.projectLocation.north }
    surveyPoint := some
      { position := some
          { eastings := some p.surveyPoint.position.eastings
            northings := some p.surveyPoint.position.northings
            elevation := some p.surveyPoint.position.elevation }
        geoReferencingParameters := some
          { crsName := some p.surveyPoint.geoReferencingParameters.crsName
            description := some p.surveyPoint.geoReferencingParameters.description
            geodeticDatum := some p.surveyPoint.geoReferencingParameters.geodeticDatum
            verticalDatum := some p.surveyPoint.geoReferencingParameters.verticalDatum
            mapProjection := some p.surveyPoint.geoReferencingParameters.mapProjection
            mapZone := some p.surveyPoint.geoReferencingParameters.mapZone } } }

/-! ### Coordinate transformer (coord_transformer.py)

The geodesy library itself is out of scope; its `Transformer.from_crs`
factory is a behaviour parameter.  What the source controls — and what
is verified — is that the factory is always invoked with
`always_xy=True`, that `transform` forwards its arguments in the order
given, and that `survey_to_wgs84` fixes the destination code 4326 and
returns the resulting pair unchanged as (longitude, latitude). -/

/-- Behaviour of one pyproj transformer object: the 2- and 3-argument
variants of its `transform` method. -/
structure PyprojTransformer where
  run2 : ℝ → ℝ → ℝ × ℝ
  run3 : ℝ → ℝ → ℝ → ℝ × ℝ × ℝ

/-- Behaviour of `pyproj.Transformer.from_crs(src, dst, always_xy)`. -/
def TransformerFactory : Type := Nat → Nat → Bool → PyprojTransformer

/-- The `CoordTransformer` object: source and destination codes plus
the underlying pyproj transformer. -/
structure CoordTransformer where
  src_epsg : Nat
  dst_epsg : Nat
  t : PyprojTransformer

/-- Model of `CoordTransformer.__init__`: constructs the underlying
transformer with `always_xy=True`. -/
def CoordTransformer.make (factory : TransformerFactory) (src dst : Nat) :
    CoordTransformer :=
  { src_epsg := src, dst_epsg := dst, t := factory src dst true }

/-- Model of `CoordTransformer.transform(x, y, z=None)`: returns an
(x, y) pair or an (x, y, z) triple in the destination CRS. -/
def CoordTransformer.transform (self : CoordTransformer) (x y : ℝ) (z : Option ℝ) :
    (ℝ × ℝ) ⊕ (ℝ × ℝ × ℝ) :=
  match z with
  | some zv => .inr (self.t.run3 x y zv)
  | none => .inl (self.t.run2 x y)

/-- Model of `survey_to_wgs84(eastings, northings, src_epsg)`: a
transformer from `src_epsg` to the fixed code 4326, applied to the
pair.  The triple arm is dead code for `z=None` (the source's tuple
unpacking would fail there). -/
def survey_to_wgs84 (factory : TransformerFactory) (eastings northings : ℝ)
    (src_epsg : Nat) : ℝ × ℝ :=
  let t := CoordTransformer.make factory src_epsg 4326
  match t.transform eastings northings none with
  | .inl lonLat => lonLat
  | .inr triple => (triple.1, triple.2.1)

/-! ### Helper lemmas -/

lemma matchZoneLit_subset {l r : List Char} (h : matchZoneLit l = some r) :
    ∀ x ∈ r, x ∈ l := by
  obtain _ | ⟨a, _ | ⟨b, _ | ⟨c, _ | ⟨d, rest⟩⟩⟩⟩ := l
  · exact Option.noConfusion h
  · exact Option.noConfusion h
  · exact Option.noConfusion h
  · exact Option.noConfusion h
  · simp only [matchZoneLit] at h
    split at h
    · injection h with h
      subst h
      intro x hx
      simp [hx]
    · exact Option.noConfusion h

lemma takeWhile_isDigit_eq_nil {xs : List Char} (h : ∀ c ∈ xs, c.isDigit = false) :
    xs.takeWhile Char.isDigit = [] := by
  cases xs with
  | nil => rfl
  | cons c t =>
    have hc : c.isDigit = false := h c (by simp)
    simp [List.takeWhile_cons, hc]

lemma zoneAt_none {prevW : Bool} {l : List Char}
    (h : ∀ c ∈ l, c.isDigit = false) : zoneAt prevW l = none := by
  unfold zoneAt
  split
  · rfl
  · cases hm : matchZoneLit l with
    | none => simp
    | some rest =>
      have hrest : ∀ c ∈ rest.dropWhile Char.isWhitespace, c.isDigit = false := by
        intro c hc
        exact h c (matchZoneLit_subset hm c ((List.dropWhile_sublist _).subset hc))
      simp [takeWhile_isDigit_eq_nil hrest]

lemma searchZonePat_none {l : List Char} (h : ∀ c ∈ l, c.isDigit = false) :
    ∀ prevW : Bool, searchZonePat prevW l = none := by
  induction l with
  | nil => intro prevW; rfl
  | cons c rest ih =>
    intro prevW
    have hz : zoneAt prevW (c :: rest) = none := zoneAt_none h
    have hr : ∀ x ∈ rest, x.isDigit = false := fun x hx => h x (by simp [hx])
    simp [searchZonePat, hz, ih hr]

lemma embeddedZoneAt_none {l : List Char} (h : ∀ c ∈ l, c.isDigit = false) :
    embeddedZoneAt l = none := by
  have hd : ∀ c ∈ l.drop (l.takeWhile Char.isAlpha).length, c.isDigit = false :=
    fun c hc => h c (List.drop_subset _ _ hc)
  unfold embeddedZoneAt
  simp [takeWhile_isDigit_eq_nil hd]

lemma searchEmbedded_none {l : List Char} (h : ∀ c ∈ l, c.isDigit = false) :
    searchEmbedded l = none := by
  induction l with
  | nil => rfl
  | cons c rest ih =>
    have hz : embeddedZoneAt (c :: rest) = none := embeddedZoneAt_none h
    have hr : ∀ x ∈ rest, x.isDigit = false := fun x hx => h x (by simp [hx])
    simp [searchEmbedded, hz, ih hr]

lemma fill_some_eq (n : String) (meta : CRSMetadata) :
    fill_from_epsg_fallback (some n) meta =
      { meta with
        crs_name := if meta.crs_name = "" then n else meta.crs_name
        description := if meta.description = "" then n else meta.description
        map_zone := if meta.map_zone = "" then _extract_zone n "" else meta.map_zone } := by
  by_cases h1 : meta.crs_name = "" <;> by_cases h2 : meta.description = "" <;>
    by_cases h3 : meta.map_zone = "" <;>
    simp [fill_from_epsg_fallback, h1, h2, h3]

lemma fill_preserves_crs_name (meta : CRSMetadata) (net : Option String)
    (h : ¬ meta.crs_name = "") :
    (fill_from_epsg_fallback net meta).crs_name = meta.crs_name := by
  cases net with
  | none => rfl
  | some n =>
    rw [fill_some_eq]
    simp [h]

/-! ### Claims -/

/-- C4: the zone-extraction heuristic returns "33N" for "UTM zone 33N",
"35" for "TM35FIN(E,N)", "25" for "GK25FIN", "6" for "zone 6", and the
empty string for every name containing no digit. -/
theorem extract_zone_literal_cases :
    _extract_zone "UTM zone 33N" "" = "33N" ∧
    _extract_zone "TM35FIN(E,N)" "" = "35" ∧
    _extract_zone "GK25FIN" "" = "25" ∧
    _extract_zone "zone 6" "" = "6" ∧
    ∀ s : String, (∀ c ∈ s.data, c.isDigit = false) → _extract_zone s "" = "" := by
  refine ⟨by decide, by decide, by decide, by decide, ?_⟩
  intro s hs
  unfold _extract_zone
  rw [searchZonePat_none hs, searchEmbedded_none hs]
  rfl

/-- C4 witness: a concrete digit-free name maps to the empty string. -/
theorem extract_zone_literal_cases_witness : _extract_zone "Helsinki GRID" "" = "" :=
  extract_zone_literal_cases.2.2.2.2 "Helsinki GRID" (by decide)

/-- C1: the network step of the resolver fills only the fields still
empty after the pyproj step — `crs_name`, `description`, `map_zone` —
and never overwrites a non-empty value; when the local step produced a
non-empty `crs_name` and an empty `map_zone`, the merged result keeps
the local `crs_name` and takes the `map_zone` derived from the network
name; when the local `crs_name` is empty, the network name becomes the
`crs_name`. -/
theorem resolver_network_merge (code : Nat) (pyp : Option PyprojCRS) (n : String) :
    (∀ meta : CRSMetadata,
      (meta.crs_name ≠ "" →
        (fill_from_epsg_fallback (some n) meta).crs_name = meta.crs_name) ∧
      (meta.crs_name = "" →
        (fill_from_epsg_fallback (some n) meta).crs_name = n) ∧
      (meta.description ≠ "" →
        (fill_from_epsg_fallback (some n) meta).description = meta.description) ∧
      (meta.map_zone ≠ "" →
        (fill_from_epsg_fallback (some n) meta).map_zone = meta.map_zone) ∧
      (meta.map_zone = "" →
        (fill_from_epsg_fallback (some n) meta).map_zone = _extract_zone n "") ∧
      (fill_from_epsg_fallback (some n) meta).geodetic_datum = meta.geodetic_datum ∧
      (fill_from_epsg_fallback (some n) meta).vertical_datum = meta.vertical_datum ∧
      (fill_from_epsg_fallback (some n) meta).map_projection = meta.map_projection) ∧
    ((_from_pyproj pyp).crs_name ≠ "" → (_from_pyproj pyp).map_zone = "" →
      from_epsg code pyp (some n) =
        .ok { _from_pyproj pyp with
              description :=
                if (_from_pyproj pyp).description = "" then n
                else (_from_pyproj pyp).description
              map_zone := _extract_zone n "" }) ∧
    ((_from_pyproj pyp).crs_name = "" → n ≠ "" →
      ∃ r, from_epsg code pyp (some n) = .ok r ∧ r.crs_name = n) := by
  refine ⟨?_, ?_, ?_⟩
  · intro meta
    rw [fill_some_eq]
    refine ⟨fun h => by simp [h], fun h => by simp [h], fun h => by simp [h],
      fun h => by simp [h], fun h => by simp [h], rfl, rfl, rfl⟩
  · intro hname hzone
    have hfill := fill_some_eq n (_from_pyproj pyp)
    simp [from_epsg, hfill, hname, hzone]
  · intro hname hn
    have hc : (fill_from_epsg_fallback (some n) (_from_pyproj pyp)).crs_name = n := by
      rw [fill_some_eq]
      simp [hname]
    refine ⟨fill_from_epsg_fallback (some n) (_from_pyproj pyp), ?_, hc⟩
    simp [from_epsg, hname, hc, hn]

/-- C1 witness: a concrete local result with name but no zone, merged
with a concrete network name carrying a zone. -/
theorem resolver_network_merge_witness :
    from_epsg 3067
      (some { name := "ETRS89 / TM35FIN(E,N)", remarks := none,
              datumBlock := .named "European Terrestrial Reference System 1989",
              opBlock := .absent })
      (some "WGS 84 / UTM zone 33N") =
    .ok { crs_name := "ETRS89 / TM35FIN(E,N)",
          description := "ETRS89 / TM35FIN(E,N)",
          geodetic_datum := "European Terrestrial Reference System 1989",
          vertical_datum := "", map_projection := "", map_zone := "33N" } := by
  have h := (resolver_network_merge 3067
    (some { name := "ETRS89 / TM35FIN(E,N)", remarks := none,
            datumBlock := .named "European Terrestrial Reference System 1989",
            opBlock := .absent })
    "WGS 84 / UTM zone 33N").2.1 (by decide) (by decide)
  exact h.trans (by simp only [Except.ok.injEq]; decide)

/-- C2: `from_epsg` fails — with the labeled message naming the code —
exactly when `crs_name` is still empty after the pyproj step and the
network step, and a code resolved by pyproj alone succeeds with only
the locally supplied fields when the network source is unreachable. -/
theorem resolution_failure_iff (code : Nat) (pyp : Option PyprojCRS) (net : Option String) :
    (from_epsg code pyp net = .error (unresolvedMsg code) ↔
      (fill_from_epsg_fallback net (_from_pyproj pyp)).crs_name = "") ∧
    (∀ e, from_epsg code pyp net = .error e → e = unresolvedMsg code) ∧
    ((_from_pyproj pyp).crs_name ≠ "" →
      from_epsg code pyp none = .ok (_from_pyproj pyp)) := by
  have hfn : fill_from_epsg_fallback none (_from_pyproj pyp) = _from_pyproj pyp := rfl
  by_cases hname : (_from_pyproj pyp).crs_name = ""
  · refine ⟨?_, ?_, fun h => absurd hname h⟩
    · by_cases hf : (fill_from_epsg_fallback net (_from_pyproj pyp)).crs_name = "" <;>
        simp [from_epsg, hname, hf]
    · intro e he
      by_cases hf : (fill_from_epsg_fallback net (_from_pyproj pyp)).crs_name = "" <;>
        simp [from_epsg, hname, hf] at he
      exact he.symm
  · have hp := fill_preserves_crs_name (_from_pyproj pyp) net hname
    refine ⟨?_, ?_, ?_⟩
    · simp [from_epsg, apply_ite CRSMetadata.crs_name, hp, hname]
    · intro e he
      simp [from_epsg, apply_ite CRSMetadata.crs_name, hp, hname] at he
    · intro _
      simp [from_epsg, hfn, hname]

/-- C2 witness: a concrete code resolvable locally succeeds with the
local fields when the network is unreachable, and the failure
characterisation holds at a concrete unresolvable behaviour. -/
theorem resolution_failure_iff_witness :
    from_epsg 3067
      (some { name := "ETRS89 / TM35FIN(E,N)", remarks := none,
              datumBlock := .absent, opBlock := .absent })
      none =
    .ok { crs_name := "ETRS89 / TM35FIN(E,N)",
          description := "ETRS89 / TM35FIN(E,N)",
          geodetic_datum := "", vertical_datum := "",
          map_projection := "", map_zone := "" } ∧
    from_epsg 9999 none none = .error (unresolvedMsg 9999) := by
  constructor
  · have h := (resolution_failure_iff 3067
      (some { name := "ETRS89 / TM35FIN(E,N)", remarks := none,
              datumBlock := .absent, opBlock := .absent })
      none).2.2 (by decide)
    exact h.trans (by simp only [Except.ok.injEq]; decide)
  · exact (resolution_failure_iff 9999 none none).1.mpr (by decide)

/-- C7 counterexample: a collaborator behaviour in which the primary
lookup succeeds but the geodetic-datum sub-lookup raises; step 1
swallows the failure yet returns a partially filled result — the
crs_name survives — not an all-empty one, refuting the claim that any
lookup failure degrades to a CRSMetadata with all fields empty. -/
theorem from_pyproj_partial_on_sublookup_failure :
    (PyprojCRS.mk "ETRS89 / TM35FIN(E,N)" none .raised .raised).datumBlock =
        DatumBlock.raised ∧
    (_from_pyproj (some
      (PyprojCRS.mk "ETRS89 / TM35FIN(E,N)" none .raised .raised))).crs_name =
      "ETRS89 / TM35FIN(E,N)" ∧
    _from_pyproj (some (PyprojCRS.mk "ETRS89 / TM35FIN(E,N)" none .raised .raised)) ≠
      { crs_name := "", description := "", geodetic_datum := "",
        vertical_datum := "", map_projection := "", map_zone := "" } :=
  ⟨rfl, by decide, by decide⟩

/-- C7 (amended): step 1 never propagates a collaborator failure; a
failing primary lookup yields the all-empty CRSMetadata, and a raising
sub-lookup leaves only the fields of its own guarded block empty while
the fields already derived are kept. -/
theorem from_pyproj_degrade (crs : PyprojCRS) :
    _from_pyproj none =
      { crs_name := "", description := "", geodetic_datum := "",
        vertical_datum := "", map_projection := "", map_zone := "" } ∧
    (_from_pyproj (some crs)).crs_name = pyOr crs.name "" ∧
    (_from_pyproj (some crs)).vertical_datum = "" ∧
    (crs.datumBlock = .raised → (_from_pyproj (some crs)).geodetic_datum = "") ∧
    (crs.opBlock = .raised →
      (_from_pyproj (some crs)).map_projection = "" ∧
      (_from_pyproj (some crs)).map_zone = "") ∧
    (∀ m, crs.opBlock = .raisedAfterMethod m →
      (_from_pyproj (some crs)).map_projection = pyOr (m.getD "") "" ∧
      (_from_pyproj (some crs)).map_zone = "") := by
  refine ⟨rfl, rfl, rfl, ?_, ?_, ?_⟩
  · intro h
    simp [_from_pyproj, h]
  · intro h
    simp [_from_pyproj, h]
  · intro m h
    simp [_from_pyproj, h]

/-- C7 witness for the amended statement: at a concrete behaviour with
both sub-lookups raising, the datum and map fields degrade to empty. -/
theorem from_pyproj_degrade_witness :
    (_from_pyproj (some (PyprojCRS.mk "NN" none .raised .raised))).geodetic_datum = "" ∧
    (_from_pyproj (some (PyprojCRS.mk "NN" none .raised .raised))).map_zone = "" := by
  have h := from_pyproj_degrade (PyprojCRS.mk "NN" none .raised .raised)
  exact ⟨h.2.2.2.1 rfl, (h.2.2.2.2.1 rfl).2⟩

/-- C3: `build_payload` is a total function of the `GeorefData` value
that produces the nested wire mapping of the schema: `north` is the
degree-to-radian conversion of `north_deg` (π/2 within 1e-9 when
`north_deg` is 90) and every other field is carried over verbatim. -/
theorem build_payload_shape (data : GeorefData) :
    (build_payload data).projectLocation.north =
      radians data.project_location.north_deg ∧
    (data.project_location.north_deg = 90 →
      |(build_payload data).projectLocation.north - Real.pi / 2| ≤ 1e-9) ∧
    (build_payload data).projectLocation.longitude = data.project_location.longitude ∧
    (build_payload data).projectLocation.latitude = data.project_location.latitude ∧
    (build_payload data).projectLocation.altitude = data.project_location.altitude ∧
    (build_payload data).surveyPoint.position.eastings = data.survey_point.eastings ∧
    (build_payload data).surveyPoint.position.northings = data.survey_point.northings ∧
    (build_payload data).surveyPoint.position.elevation = data.survey_point.elevation ∧
    (build_payload data).surveyPoint.geoReferencingParameters.crsName =
      data.geo_ref_params.crs_name ∧
    (build_payload data).surveyPoint.geoReferencingParameters.description =
      data.geo_ref_params.description ∧
    (build_payload data).surveyPoint.geoReferencingParameters.geodeticDatum =
      data.geo_ref_params.geodetic_datum ∧
    (build_payload data).surveyPoint.geoReferencingParameters.verticalDatum =
      data.geo_ref_params.vertical_datum ∧
    (build_payload data).surveyPoint.geoReferencingParameters.mapProjection =
      data.geo_ref_params.map_projection ∧
    (build_payload data).surveyPoint.geoReferencingParameters.mapZone =
      data.geo_ref_params.map_zone := by
  refine ⟨rfl, ?_, rfl, rfl, rfl, rfl, rfl, rfl, rfl, rfl, rfl, rfl, rfl, rfl⟩
  intro h
  have hpi : (build_payload data).projectLocation.north = Real.pi / 2 := by
    show radians data.project_location.north_deg = Real.pi / 2
    rw [h, radians]
    ring
  rw [hpi, sub_self, abs_zero]
  norm_num

/-- C3 witness: at north_deg = 90 the wire `north` is π/2 within the
tolerance. -/
theorem build_payload_shape_witness :
    |(build_payload { project_location := { north_deg := 90 } }).projectLocation.north -
      Real.pi / 2| ≤ 1e-9 :=
  (build_payload_shape { project_location := { north_deg := 90 } }).2.1 rfl

lemma degrees_radians (x : ℝ) : degrees (radians x) = x := by
  unfold degrees radians
  have hpi : Real.pi ≠ 0 := Real.pi_ne_zero
  field_simp

/-- C6: reading back a payload built from a GeorefData with
north_deg = d reproduces d within 1e-9 (in the real-number model the
degrees→radians→degrees round trip is exact). -/
theorem north_roundtrip (d : ℝ) (data : GeorefData)
    (h : data.project_location.north_deg = d) :
    |(parseGeoLocation (payloadToRaw
        (build_payload data))).project_location.north_deg - d| ≤ 1e-9 := by
  have hv : (parseGeoLocation (payloadToRaw
      (build_payload data))).project_location.north_deg =
        degrees (radians data.project_location.north_deg) := rfl
  rw [hv, degrees_radians, h, sub_self, abs_zero]
  norm_num

/-- C6 witness: the round trip at the concrete degree value 42. -/
theorem north_roundtrip_witness :
    |(parseGeoLocation (payloadToRaw
        (build_payload { project_location := { north_deg := 42 } }))).project_location.north_deg
      - 42| ≤ 1e-9 :=
  north_roundtrip 42 { project_location := { north_deg := 42 } } rfl

/-- C5: a raw response missing the `surveyPoint` section is read
without error into a GeorefData whose survey-point position and CRS
parameters hold only default (zero/empty) values, and likewise a
missing `projectLocation` section yields the all-default project
location. -/
theorem reader_missing_sections (resp : RawResponse) :
    (resp.surveyPoint = none →
      read_geolocation (.ok resp) = .ok (parseGeoLocation resp) ∧
      (parseGeoLocation resp).survey_point =
        { eastings := 0, northings := 0, elevation := 0 } ∧
      (parseGeoLocation resp).geo_ref_params =
        { crs_name := "", description := "", geodetic_datum := "",
          vertical_datum := "", map_projection := "", map_zone := "" }) ∧
    (resp.projectLocation = none →
      (parseGeoLocation resp).project_location =
        { longitude := 0, latitude := 0, altitude := 0, north_deg := 0 }) := by
  constructor
  · intro h
    refine ⟨rfl, ?_, ?_⟩ <;> simp [parseGeoLocation, h]
  · intro h
    simp [parseGeoLocation, h]

/-- C5 witness: a concrete response carrying only a project location is
read into default survey-point values without error. -/
theorem reader_missing_sections_witness :
    read_geolocation (.ok (RawResponse.mk
        (some (RawProjectLocation.mk (some 24.9) (some 60.2) none none)) none)) =
      .ok (parseGeoLocation (RawResponse.mk
        (some (RawProjectLocation.mk (some 24.9) (some 60.2) none none)) none)) ∧
    (parseGeoLocation (RawResponse.mk
        (some (RawProjectLocation.mk (some 24.9) (some 60.2) none none)) none)).survey_point =
      { eastings := 0, northings := 0, elevation := 0 } := by
  have h := (reader_missing_sections (RawResponse.mk
    (some (RawProjectLocation.mk (some 24.9) (some 60.2) none none)) none)).1 rfl
  exact ⟨h.1, h.2.1⟩

/-- C10: sections present with individual keys missing are read with
per-field defaults and no error: missing project-location numbers
become 0.0 (a missing `north` yields north_deg = 0), missing position
keys become 0.0, and a missing `geoReferencingParameters` block or any
of its missing keys becomes the empty string. -/
theorem reader_missing_keys (resp : RawResponse) (p : RawProjectLocation)
    (sp : RawSurveyPoint) (hp : resp.projectLocation = some p)
    (hs : resp.surveyPoint = some sp) :
    (parseGeoLocation resp).project_location.longitude = p.longitude.getD 0 ∧
    (parseGeoLocation resp).project_location.latitude = p.latitude.getD 0 ∧
    (parseGeoLocation resp).project_location.altitude = p.altitude.getD 0 ∧
    (parseGeoLocation resp).project_location.north_deg = degrees (p.north.getD 0) ∧
    (p.north = none → (parseGeoLocation resp).project_location.north_deg = 0) ∧
    (sp.position = none →
      (parseGeoLocation resp).survey_point =
        { eastings := 0, northings := 0, elevation := 0 }) ∧
    (∀ q, sp.position = some q →
      (parseGeoLocation resp).survey_point =
        { eastings := q.eastings.getD 0, northings := q.northings.getD 0,
          elevation := q.elevation.getD 0 }) ∧
    (sp.geoReferencingParameters = none →
      (parseGeoLocation resp).geo_ref_params =
        { crs_name := "", description := "", geodetic_datum := "",
          vertical_datum := "", map_projection := "", map_zone := "" }) ∧
    (∀ g, sp.geoReferencingParameters = some g →
      (parseGeoLocation resp).geo_ref_params =
        { crs_name := g.crsName.getD "", description := g.description.getD "",
          geodetic_datum := g.geodeticDatum.getD "",
          vertical_datum := g.verticalDatum.getD "",
          map_projection := g.mapProjection.getD "",
          map_zone := g.mapZone.getD "" }) := by
  refine ⟨?_, ?_, ?_, ?_, ?_, ?_, ?_, ?_, ?_⟩
  · simp [parseGeoLocation, hp]
  · simp [parseGeoLocation, hp]
  · simp [parseGeoLocation, hp]
  · simp [parseGeoLocation, hp]
  · intro h
    simp [parseGeoLocation, hp, h, degrees]
  · intro h
    simp [parseGeoLocation, hs, h]
  · intro q h
    simp [parseGeoLocation, hs, h]
  · intro h
    simp [parseGeoLocation, hs, h]
  · intro g h
    simp [parseGeoLocation, hs, h]

/-- C10 witness: a concrete response whose sections are present but
empty inside reads back as all defaults. -/
theorem reader_missing_keys_witness :
    (parseGeoLocation (RawResponse.mk (some (RawProjectLocation.mk none none none none))
        (some (RawSurveyPoint.mk none none)))).project_location.north_deg = 0 ∧
    (parseGeoLocation (RawResponse.mk (some (RawProjectLocation.mk none none none none))
        (some (RawSurveyPoint.mk none none)))).geo_ref_params =
      { crs_name := "", description := "", geodetic_datum := "",
        vertical_datum := "", map_projection := "", map_zone := "" } := by
  have h := reader_missing_keys
    (RawResponse.mk (some (RawProjectLocation.mk none none none none))
      (some (RawSurveyPoint.mk none none)))
    (RawProjectLocation.mk none none none none) (RawSurveyPoint.mk none none) rfl rfl
  exact ⟨h.2.2.2.2.1 rfl, h.2.2.2.2.2.2.2.1 rfl⟩

/-- C8: a transport failure of the gateway call is wrapped in an error
naming the failed command (GetGeoLocation / SetGeoLocation) and
carrying the lower-level cause; neither reader nor writer returns a
partial result in that case. -/
theorem transport_errors_wrapped {α : Type} (tapir : Payload → Except String α)
    (data : GeorefData) (exc err : String) :
    read_geolocation (.error exc) =
      .error ("Tapir GetGeoLocation failed: " ++ exc) ∧
    (tapir (build_payload data) = .error err →
      write_geolocation tapir data =
        .error ("Tapir SetGeoLocation failed: " ++ err)) := by
  refine ⟨rfl, ?_⟩
  intro h
  unfold write_geolocation
  rw [h]

/-- C8 witness: concrete transport failures of both commands. -/
theorem transport_errors_wrapped_witness :
    read_geolocation (.error "socket closed") =
      .error "Tapir GetGeoLocation failed: socket closed" ∧
    write_geolocation (fun _ => (.error "boom" : Except String Unit)) {} =
      .error "Tapir SetGeoLocation failed: boom" := by
  have h := transport_errors_wrapped (fun _ => (.error "boom" : Except String Unit))
    {} "socket closed" "boom"
  exact ⟨h.1, h.2 rfl⟩

/-- C9: the underlying transformer is always constructed with
always_xy = true, under which the collaborator's contract makes the
first coordinate the easting/longitude-like axis and the second the
northing/latitude-like axis for any pair of CRS codes; `transform`
forwards (x, y) in the order given, and `survey_to_wgs84` transforms
(eastings, northings) from the source code into the fixed destination
code 4326 and returns the resulting (longitude, latitude) pair
unchanged. -/
theorem transform_axis_order (factory : TransformerFactory) (src dst : Nat)
    (x y z eastings northings : ℝ) :
    (CoordTransformer.make factory src dst).transform x y none =
      .inl ((factory src dst true).run2 x y) ∧
    (CoordTransformer.make factory src dst).transform x y (some z) =
      .inr ((factory src dst true).run3 x y z) ∧
    (CoordTransformer.make factory src dst).src_epsg = src ∧
    (CoordTransformer.make factory src dst).dst_epsg = dst ∧
    survey_to_wgs84 factory eastings northings src =
      (factory src 4326 true).run2 eastings northings :=
  ⟨rfl, rfl, rfl, rfl, rfl⟩

end ArchicadGeoref
